import Mathlib

/-!
Shallow embedding of the eol-test-hdmi diagnostic program (src/src/main.rs)
and proofs about its color packing, frame filling, audio write loop and
top-level result aggregation.

Rust machine integers are modelled as Nat with explicit truncation where
the source performs fixed-width arithmetic; a Rust function that can panic
is modelled with an explicit result type carrying a panic constructor,
since such a function never returns a value to its caller on that path.
-/

namespace EolTestHdmi

/-- The three test colors, from the Color enum in main.rs. -/
inductive Color
  | Red
  | Green
  | Blue
deriving DecidableEq, Repr

/-- Little-endian byte decomposition of a u32 value, as u32.to_le_bytes. -/
def u32ToLeBytes (x : Nat) : List Nat :=
  [x % 256, x / 2 ^ 8 % 256, x / 2 ^ 16 % 256, x / 2 ^ 24 % 256]

/-- Little-endian byte decomposition of a u16 value, as u16.to_le_bytes. -/
def u16ToLeBytes (x : Nat) : List Nat :=
  [x % 256, x / 2 ^ 8 % 256]

/-- The u32 each color maps to in the Into (u8 x 4) impl:
0xFF shifted left by 16, 8 and 0 bits for Red, Green and Blue. -/
def colorToU32 : Color → Nat
  | .Red => 0xFF <<< 16
  | .Green => 0xFF <<< 8
  | .Blue => 0xFF

/-- The Into (u8 x 4) impl for Color: the little-endian bytes of the
shifted 0xFF value. -/
def intoBytes4 (c : Color) : List Nat :=
  u32ToLeBytes (colorToU32 c)

/-- rgb888_to_rgb565 from main.rs: truncate each channel to 5/6/5 bits and
pack into a u16 as r in bits 11..15, g in bits 5..10, b in bits 0..4. -/
def rgb888_to_rgb565 (red green blue : Nat) : Nat :=
  let r := (red % 256) >>> 3
  let g := (green % 256) >>> 2
  let b := (blue % 256) >>> 3
  ((r <<< 11) ||| (g <<< 5) ||| b) % 2 ^ 16

/-- The Into (u8 x 2) impl for Color: RGB565 packing of the pure color,
as little-endian bytes. -/
def intoBytes2 (c : Color) : List Nat :=
  u16ToLeBytes (match c with
    | .Red => rgb888_to_rgb565 0xFF 0 0
    | .Green => rgb888_to_rgb565 0 0xFF 0
    | .Blue => rgb888_to_rgb565 0 0 0xFF)

/-- Result of a Rust function returning unit that may panic: either the
mutated buffer, or a panic with its message. -/
inductive FillResult
  | ok (frame : List Nat)
  | panic (msg : String)
deriving DecidableEq, Repr

/-- The sequence produced by fill_with over pattern.iter().cycle():
the n consecutive closure calls starting at cycle position pos yield
pattern[(pos + i) mod pattern.length] for i = 0, 1, .... The peek before
the fill does not advance the cycle, so the fill starts at position 0. -/
def fillWithCycle (pattern : List Nat) : Nat → Nat → List Nat
  | 0, _ => []
  | n + 1, pos => pattern.getD (pos % pattern.length) 0 :: fillWithCycle pattern n (pos + 1)

/-- frame_set_color from main.rs: overwrite the whole frame with the
cycled 2- or 4-byte packing of the color; any other bytes-per-pixel
value panics with a message naming it. -/
def frame_set_color (frame : List Nat) (color : Color) (bytespp : Nat) : FillResult :=
  match bytespp with
  | 2 => .ok (fillWithCycle (intoBytes2 color) frame.length 0)
  | 4 => .ok (fillWithCycle (intoBytes4 color) frame.length 0)
  | other => .panic (toString other ++ " bytes per pixel is not supported")

/-- Console mode as in the KdMode argument of set_kd_mode_ex. -/
inductive KdMode
  | Graphics
  | Text
deriving DecidableEq, Repr

/-- Outcome of one of the diagnostic routines: normal return, an error
returned through the Result type, or a panic. -/
inductive RunOutcome
  | ok
  | error (msg : String)
  | panic (msg : String)
deriving DecidableEq, Repr

/-- Environment for the frame routine: whether opening the framebuffer
succeeds, the geometry read from it, and whether each console mode
switch succeeds at the device level. -/
structure FrameEnv where
  fbOpenOk : Bool
  height : Nat
  lineLength : Nat
  bytespp : Nat
  setGraphicsOk : Bool
  setTextOk : Bool
deriving DecidableEq, Repr

/-- The frame routine from main.rs: open the framebuffer, allocate a
lineLength * height byte buffer, switch the console to graphics mode,
paint Red, Green, Blue in order via frame_set_color, then switch back to
text mode. The second component records the console mode switches that
actually took effect, in order; a panic while painting skips the
text-mode restore because control never reaches it. -/
def frameRun (env : FrameEnv) : RunOutcome × List KdMode :=
  if env.fbOpenOk = false then
    (.error "Failed to open framebuffer /dev/fb0", [])
  else
    let frame0 := List.replicate (env.lineLength * env.height) 0
    if env.setGraphicsOk = false then
      (.error "Unable to disable text mode on TTY /dev/tty1", [])
    else
      match frame_set_color frame0 .Red env.bytespp with
      | .panic m => (.panic m, [.Graphics])
      | .ok f1 =>
        match frame_set_color f1 .Green env.bytespp with
        | .panic m => (.panic m, [.Graphics])
        | .ok f2 =>
          match frame_set_color f2 .Blue env.bytespp with
          | .panic m => (.panic m, [.Graphics])
          | .ok _ =>
            if env.setTextOk = false then
              (.error "Unable to enable text mode on TTY /dev/tty1", [.Graphics])
            else
              (.ok, [.Graphics, .Text])

/-- AUDIO_LENGTH from main.rs: seconds each tone plays. -/
def AUDIO_LENGTH : Nat := 1

/-- The loop bound of play_sine_wave: AUDIO_LENGTH * 44100 / 1024 writes
per tone, with Rust integer division. -/
def tone_write_count : Nat := AUDIO_LENGTH * 44100 / 1024

/-- The write loop of play_sine_wave. The device is modelled as a map
from the index of the writei call to its result: Err (an alsa error,
propagated with context through the question mark operator) or Ok m, the
number of frames accepted. assert_eq! panics when m differs from 1024. -/
def writeLoop (dev : Nat → Except String Nat) : Nat → Nat → RunOutcome
  | _, 0 => .ok
  | k, n + 1 =>
    match dev k with
    | .error e => .error ("Failed to write sine wave value to audio buffer: " ++ e)
    | .ok m =>
      if m = 1024 then writeLoop dev (k + 1) n
      else .panic ("assertion failed: " ++ toString m ++ " == 1024")

/-- The write phase of play_sine_wave: tone_write_count writei calls
starting from call index 0. -/
def play_sine_wave_writes (dev : Nat → Except String Nat) : RunOutcome :=
  writeLoop dev 0 tone_write_count

/-- The pitches passed to the three play_sine_wave calls in siren, in
source order (2.0, 4.0, 6.0 as exact rationals). -/
def sirenPitchSequence : List ℚ := [2, 4, 6]

/-- The pitch labelling of the buffer writes siren performs when every
write succeeds: tone_write_count writes per pitch, in pitch order. -/
def sirenWriteTrace : List ℚ :=
  sirenPitchSequence.flatMap (fun p => List.replicate tone_write_count p)

/-- The RGB888 channel triple each Color stands for: the arguments the
Into (u8 x 2) impl passes to rgb888_to_rgb565 (and equally the channel
bytes of the u32 in the Into (u8 x 4) impl). -/
def colorRGB888 : Color → Nat × Nat × Nat
  | .Red => (0xFF, 0, 0)
  | .Green => (0, 0xFF, 0)
  | .Blue => (0, 0, 0xFF)

/-- Modelled from the spec: the repository has no unpacking code. Inverts
the 4-byte packing (0x00RRGGBB little-endian: byte 0 is blue, byte 1
green, byte 2 red) back to an RGB888 triple. -/
def unpack4 (bytes : List Nat) : Nat × Nat × Nat :=
  (bytes.getD 2 0, bytes.getD 1 0, bytes.getD 0 0)

/-- Modelled from the spec: the repository has no unpacking code. Reads
the RGB565 fields of the little-endian u16 and re-expands each channel
to 8 bits by shifting left, the standard inverse of truncation. -/
def unpack565 (bytes : List Nat) : Nat × Nat × Nat :=
  let v := bytes.getD 0 0 + 256 * bytes.getD 1 0
  ((v >>> 11) <<< 3, ((v >>> 5) % 64) <<< 2, (v % 32) <<< 3)

/-- Result of joining a spawned thread: Ok carrying the closure Result,
or Err when the thread panicked. -/
inductive JoinOutcome
  | ok (r : Except String Unit)
  | panicked
deriving Repr

/-- The aggregation step of main(): join the frame thread first, bailing
on a join failure and otherwise propagating its error with context via
the question mark operator; only afterwards check the siren thread the
same way. -/
def mainAggregate (frameRes sirenRes : JoinOutcome) : Except String Unit :=
  match frameRes with
  | .panicked => .error "Unable to join frame_thread"
  | .ok (.error e) => .error ("Failed to display frames: " ++ e)
  | .ok (.ok _) =>
    match sirenRes with
    | .panicked => .error "Unable to join siren_thread"
    | .ok (.error e) => .error ("Failed to play sound: " ++ e)
    | .ok (.ok _) => .ok ()

/-- The packing of a color at a given bytes-per-pixel value, used to
state the tiling property. -/
def colorPattern (c : Color) (P : Nat) : List Nat :=
  if P = 2 then intoBytes2 c else intoBytes4 c

theorem fillWithCycle_length (pattern : List Nat) (n pos : Nat) :
    (fillWithCycle pattern n pos).length = n := by
  induction n generalizing pos with
  | zero => rfl
  | succ n ih => simp [fillWithCycle, ih]

theorem fillWithCycle_getD (pattern : List Nat) (n pos i : Nat) (hi : i < n) :
    (fillWithCycle pattern n pos).getD i 0 = pattern.getD ((pos + i) % pattern.length) 0 := by
  induction n generalizing pos i with
  | zero => omega
  | succ n ih =>
    cases i with
    | zero => simp [fillWithCycle]
    | succ i =>
      have hi' : i < n := by omega
      simp only [fillWithCycle, List.getD_cons_succ]
      rw [ih pos.succ i hi']
      have h : pos.succ + i = pos + (i + 1) := by omega
      rw [h]

theorem intoBytes2_length (c : Color) : (intoBytes2 c).length = 2 := rfl

theorem intoBytes4_length (c : Color) : (intoBytes4 c).length = 4 := rfl

theorem frame_set_color_of_ne (frame : List Nat) (c : Color) (P : Nat)
    (h2 : P ≠ 2) (h4 : P ≠ 4) :
    frame_set_color frame c P = .panic (toString P ++ " bytes per pixel is not supported") :=
  match P, h2, h4 with
  | 0, _, _ => rfl
  | 1, _, _ => rfl
  | 2, h2, _ => absurd rfl h2
  | 3, _, _ => rfl
  | 4, _, h4 => absurd rfl h4
  | _ + 5, _, _ => rfl

/-- Checks whether a top-level result reports a siren failure: the only
way main reports one is an error message carrying the Failed to play
sound context. -/
def reportsSirenFailure : Except String Unit → Bool
  | .ok _ => false
  | .error e => List.isPrefixOf ("Failed to play sound").data e.data

theorem writeLoop_ok (dev : Nat → Except String Nat) (k n : Nat)
    (h : ∀ j, k ≤ j → j < k + n → dev j = .ok 1024) :
    writeLoop dev k n = .ok := by
  induction n generalizing k with
  | zero => rfl
  | succ n ih =>
    have hk : dev k = .ok 1024 := h k le_rfl (by omega)
    simp only [writeLoop, hk]
    exact ih (k + 1) (fun j h1 h2 => h j (by omega) (by omega))

/-- C1: for bytes-per-pixel 2 or 4, whether or not it divides the buffer
length, frame_set_color returns a buffer of the same length whose byte i
is byte i mod P of the P-byte packing of the color, for every index i;
the fill starts at pattern index 0 and covers the whole buffer. -/
theorem frame_set_color_tiles (frame : List Nat) (c : Color) (P : Nat)
    (hP : P = 2 ∨ P = 4) :
    ∃ out, frame_set_color frame c P = .ok out
      ∧ out.length = frame.length
      ∧ (colorPattern c P).length = P
      ∧ ∀ i, i < frame.length → out.getD i 0 = (colorPattern c P).getD (i % P) 0 := by
  rcases hP with rfl | rfl
  · refine ⟨fillWithCycle (intoBytes2 c) frame.length 0, rfl,
      fillWithCycle_length _ _ _, rfl, ?_⟩
    intro i hi
    rw [fillWithCycle_getD _ _ _ _ hi]
    have hl : (intoBytes2 c).length = 2 := rfl
    simp [colorPattern, hl]
  · refine ⟨fillWithCycle (intoBytes4 c) frame.length 0, rfl,
      fillWithCycle_length _ _ _, rfl, ?_⟩
    intro i hi
    rw [fillWithCycle_getD _ _ _ _ hi]
    have hl : (intoBytes4 c).length = 4 := rfl
    simp [colorPattern, hl]

/-- Witness for C1 at the concrete buffer [7, 7, 7] with Red and
bytes-per-pixel 2 (a pattern length not dividing the buffer length). -/
theorem frame_set_color_tiles_witness :
    ∃ out, frame_set_color [7, 7, 7] Color.Red 2 = .ok out
      ∧ out.length = List.length [7, 7, 7]
      ∧ (colorPattern Color.Red 2).length = 2
      ∧ ∀ i, i < List.length [7, 7, 7] →
          out.getD i 0 = (colorPattern Color.Red 2).getD (i % 2) 0 :=
  frame_set_color_tiles [7, 7, 7] Color.Red 2 (Or.inl rfl)

/-- Counterexample to C2: at bytes-per-pixel 3 the paint operation does
not return a checked error; it panics (the panic branch of the match in
frame_set_color), with a message naming the value. -/
theorem frame_set_color_unsupported_cex :
    frame_set_color [0, 0, 0, 0, 0, 0] Color.Red 3
      = .panic "3 bytes per pixel is not supported" := rfl

/-- C2 as amended: for every bytes-per-pixel value other than 2 or 4 the
paint operation panics with a message naming the unsupported value,
rather than returning a checked error; at the process level main only
sees the panic as a thread-join failure. -/
theorem frame_set_color_unsupported_panics (frame : List Nat) (c : Color) (P : Nat)
    (h2 : P ≠ 2) (h4 : P ≠ 4) :
    frame_set_color frame c P = .panic (toString P ++ " bytes per pixel is not supported")
      ∧ mainAggregate .panicked (.ok (.ok ()))
          = .error "Unable to join frame_thread" :=
  ⟨frame_set_color_of_ne frame c P h2 h4, rfl⟩

/-- Witness for the amended C2 at bytes-per-pixel 3. -/
theorem frame_set_color_unsupported_panics_witness :
    frame_set_color [1, 2, 3] Color.Green 3
        = .panic (toString 3 ++ " bytes per pixel is not supported")
      ∧ mainAggregate .panicked (.ok (.ok ()))
          = .error "Unable to join frame_thread" :=
  frame_set_color_unsupported_panics [1, 2, 3] Color.Green 3 (by decide) (by decide)

/-- Counterexample to C3: when the frame task fails and the siren task
also fails, the aggregate result is only the frame failure; the siren
failure is not reported, because main propagates the frame error before
it ever looks at the siren result. -/
theorem mainAggregate_drops_siren_failure_cex :
    mainAggregate (.ok (.error "DeviceOpenError")) (.ok (.error "DrainError"))
        = .error "Failed to display frames: DeviceOpenError"
      ∧ reportsSirenFailure
          (mainAggregate (.ok (.error "DeviceOpenError")) (.ok (.error "DrainError")))
          = false :=
  ⟨rfl, by decide⟩

/-- C3 as amended: the runner checks the frame result first and
short-circuits on its failure. A frame failure is reported even when the
siren succeeded (in particular a frame device-open error with a
successful siren yields an aggregate failure naming the frame subsystem,
and the siren success is not an error); a siren failure is reported only
when the frame task succeeded; when both fail, only the frame failure is
surfaced. -/
theorem mainAggregate_check_order (e f : String) :
    mainAggregate (.ok (.error e)) (.ok (.ok ()))
        = .error ("Failed to display frames: " ++ e)
      ∧ mainAggregate (.ok (.ok ())) (.ok (.error f))
          = .error ("Failed to play sound: " ++ f)
      ∧ mainAggregate (.ok (.error e)) (.ok (.error f))
          = .error ("Failed to display frames: " ++ e)
      ∧ mainAggregate (.ok (.ok ())) (.ok (.ok ())) = .ok () :=
  ⟨rfl, rfl, rfl, rfl⟩

/-- Counterexample to C4: with the framebuffer open and the graphics
switch successful but bytes-per-pixel 3, the paint step panics and the
routine never reaches the text-mode restore: the console is left in
graphics mode on this exit path. -/
theorem frameRun_no_restore_on_panic_cex :
    frameRun { fbOpenOk := true, height := 2, lineLength := 4, bytespp := 3,
               setGraphicsOk := true, setTextOk := true }
      = (.panic "3 bytes per pixel is not supported", [.Graphics]) := rfl

/-- C4 as amended: after the switch to graphics mode, the console is
restored to text mode on the successful path, but on the panic path
(painting with an unsupported pixel format) control never reaches the
restore and the console stays in graphics mode. -/
theorem frameRun_console_restore (env : FrameEnv)
    (hopen : env.fbOpenOk = true) (hg : env.setGraphicsOk = true) :
    ((env.bytespp = 2 ∨ env.bytespp = 4) → env.setTextOk = true →
        frameRun env = (.ok, [.Graphics, .Text]))
      ∧ ((env.bytespp ≠ 2 ∧ env.bytespp ≠ 4) →
          frameRun env
            = (.panic (toString env.bytespp ++ " bytes per pixel is not supported"),
               [.Graphics])) := by
  constructor
  · intro hbpp ht
    rcases hbpp with hb | hb <;>
      simp [frameRun, hopen, hg, ht, hb, frame_set_color]
  · intro hbpp
    rw [frameRun]
    simp only [hopen, hg, Bool.true_eq_false, if_false]
    rw [frame_set_color_of_ne _ _ _ hbpp.1 hbpp.2]

/-- Witness for the amended C4: at a concrete environment with
bytes-per-pixel 2 everything succeeds and the console mode trace ends in
text mode. -/
theorem frameRun_console_restore_witness :
    frameRun { fbOpenOk := true, height := 2, lineLength := 4, bytespp := 2,
               setGraphicsOk := true, setTextOk := true }
      = (.ok, [.Graphics, .Text]) :=
  (frameRun_console_restore
      { fbOpenOk := true, height := 2, lineLength := 4, bytespp := 2,
        setGraphicsOk := true, setTextOk := true } rfl rfl).1 (Or.inl rfl) rfl

/-- Counterexample to C5: when the device accepts only 512 of the 1024
frames, the write loop does not return a checked error result; it hits
the assert_eq and panics. -/
theorem short_write_panics_cex :
    play_sine_wave_writes (fun _ => .ok 512)
      = .panic ("assertion failed: " ++ toString 512 ++ " == 1024") := rfl

/-- C5 as amended: each writei call must accept exactly 1024 frames;
when every call does, the loop completes normally; a short write (Ok
with fewer than 1024 frames) triggers an assert_eq panic rather than a
checked error result; only a writei call that itself returns Err is
propagated as a checked error with context. -/
theorem play_sine_wave_write_behavior (dev : Nat → Except String Nat)
    (m : Nat) (e : String) (hm : m ≠ 1024) :
    ((∀ k, k < tone_write_count → dev k = .ok 1024) →
        play_sine_wave_writes dev = .ok)
      ∧ (dev 0 = .ok m →
          play_sine_wave_writes dev
            = .panic ("assertion failed: " ++ toString m ++ " == 1024"))
      ∧ (dev 0 = .error e →
          play_sine_wave_writes dev
            = .error ("Failed to write sine wave value to audio buffer: " ++ e)) := by
  refine ⟨fun h => writeLoop_ok dev 0 tone_write_count
    (fun j h1 h2 => h j (by omega)), ?_, ?_⟩
  · intro h0
    show writeLoop dev 0 tone_write_count = _
    rw [show tone_write_count = 42 + 1 from rfl]
    simp only [writeLoop, h0]
    rw [if_neg hm]
  · intro h0
    show writeLoop dev 0 tone_write_count = _
    rw [show tone_write_count = 42 + 1 from rfl]
    simp only [writeLoop, h0]

/-- Witness for the amended C5: a device accepting 1024 frames on every
call completes normally, and one accepting 512 frames panics. -/
theorem play_sine_wave_write_behavior_witness :
    play_sine_wave_writes (fun _ => .ok 1024) = .ok
      ∧ play_sine_wave_writes (fun _ => .ok 512)
          = .panic ("assertion failed: " ++ toString 512 ++ " == 1024") :=
  ⟨(play_sine_wave_write_behavior (fun _ => .ok 1024) 512 "x" (by decide)).1
      (fun k _ => rfl),
   (play_sine_wave_write_behavior (fun _ => .ok 512) 512 "x" (by decide)).2.1 rfl⟩

/-- C6: the loop bound AUDIO_LENGTH * 44100 / 1024 equals 43 by integer
division, so with every write accepted each of the three tones is
written exactly 43 times, and the pitches are 2.0, 4.0, 6.0 in source
order. -/
theorem siren_write_count_correct :
    tone_write_count = AUDIO_LENGTH * 44100 / 1024
      ∧ tone_write_count = 43
      ∧ sirenPitchSequence = [2, 4, 6]
      ∧ sirenWriteTrace
          = List.replicate 43 (2 : ℚ) ++ List.replicate 43 4 ++ List.replicate 43 6
      ∧ sirenWriteTrace.count (2 : ℚ) = 43
      ∧ sirenWriteTrace.count (4 : ℚ) = 43
      ∧ sirenWriteTrace.count (6 : ℚ) = 43
      ∧ play_sine_wave_writes (fun _ => .ok 1024) = .ok := by
  refine ⟨rfl, rfl, rfl, by decide, by decide, by decide, by decide, ?_⟩
  exact writeLoop_ok _ 0 tone_write_count (fun j h1 h2 => rfl)

/-- C7: for every color, packing at 4 bytes per pixel and unpacking
yields the original RGB888 triple exactly, and the RGB565 path loses at
most the truncated low bits per channel: 7 for the 5-bit red and blue
channels, 3 for the 6-bit green channel, with the unpacked value never
above the original. -/
theorem pack_unpack_roundtrip :
    ∀ c : Color,
      unpack4 (intoBytes4 c) = colorRGB888 c
      ∧ (unpack565 (intoBytes2 c)).1 ≤ (colorRGB888 c).1
      ∧ (colorRGB888 c).1 - (unpack565 (intoBytes2 c)).1 ≤ 7
      ∧ (unpack565 (intoBytes2 c)).2.1 ≤ (colorRGB888 c).2.1
      ∧ (colorRGB888 c).2.1 - (unpack565 (intoBytes2 c)).2.1 ≤ 3
      ∧ (unpack565 (intoBytes2 c)).2.2 ≤ (colorRGB888 c).2.2
      ∧ (colorRGB888 c).2.2 - (unpack565 (intoBytes2 c)).2.2 ≤ 7 := by
  intro c
  cases c <;> exact ⟨rfl, by decide, by decide, by decide, by decide, by decide, by decide⟩

/-- C9: painting with bytes-per-pixel 2 and color Blue puts the
little-endian bytes of rgb888_to_rgb565 0 0 255 = 0x001F, namely
[0x1F, 0x00], in the first two bytes of the buffer. -/
theorem blue_rgb565_first_two_bytes (frame : List Nat) (h : 2 ≤ frame.length) :
    rgb888_to_rgb565 0 0 0xFF = 0x001F
      ∧ u16ToLeBytes (rgb888_to_rgb565 0 0 0xFF) = [0x1F, 0x00]
      ∧ ∃ out, frame_set_color frame Color.Blue 2 = .ok out
          ∧ out.take 2 = u16ToLeBytes (rgb888_to_rgb565 0 0 0xFF)
          ∧ out.getD 0 0 = 0x1F ∧ out.getD 1 0 = 0x00 := by
  refine ⟨rfl, rfl, fillWithCycle (intoBytes2 .Blue) frame.length 0, rfl, ?_⟩
  obtain ⟨m, hm⟩ : ∃ m, frame.length = m + 2 := ⟨frame.length - 2, by omega⟩
  rw [hm]
  have hstep : fillWithCycle (intoBytes2 Color.Blue) (m + 2) 0
      = 0x1F :: 0x00 :: fillWithCycle (intoBytes2 Color.Blue) m 2 := rfl
  rw [hstep]
  exact ⟨rfl, rfl, rfl⟩

/-- Witness for C9 at the concrete five-byte buffer [9, 9, 9, 9, 9]. -/
theorem blue_rgb565_first_two_bytes_witness :
    rgb888_to_rgb565 0 0 0xFF = 0x001F
      ∧ u16ToLeBytes (rgb888_to_rgb565 0 0 0xFF) = [0x1F, 0x00]
      ∧ ∃ out, frame_set_color [9, 9, 9, 9, 9] Color.Blue 2 = .ok out
          ∧ out.take 2 = u16ToLeBytes (rgb888_to_rgb565 0 0 0xFF)
          ∧ out.getD 0 0 = 0x1F ∧ out.getD 1 0 = 0x00 :=
  blue_rgb565_first_two_bytes [9, 9, 9, 9, 9] (by decide)

/-- C10: the 4-byte little-endian packing of every color has its fourth
byte equal to 0x00, and concretely Red packs to [0x00, 0x00, 0xFF, 0x00],
Green to [0x00, 0xFF, 0x00, 0x00] and Blue to [0xFF, 0x00, 0x00, 0x00]. -/
theorem intoBytes4_alpha_zero :
    intoBytes4 Color.Red = [0x00, 0x00, 0xFF, 0x00]
      ∧ intoBytes4 Color.Green = [0x00, 0xFF, 0x00, 0x00]
      ∧ intoBytes4 Color.Blue = [0xFF, 0x00, 0x00, 0x00]
      ∧ ∀ c : Color, (intoBytes4 c).getD 3 0 = 0 := by
  refine ⟨rfl, rfl, rfl, fun c => ?_⟩
  cases c <;> rfl

end EolTestHdmi
